import Mathlib

/-!
Shallow embedding of `src/flappy_bird.py` (the Roman-themed flappy-bird game).

Real-valued coordinates of the Python code are embedded as rationals: every
arithmetic operation the game performs on positions, velocities and the score
(addition, subtraction, multiplication, `min`, comparison, truncation to int)
is exact on the dyadic values the game actually produces, so ℚ is a faithful
carrier.  Machine integers of `pygame.Rect` are embedded as ℤ.  Python `//`
on nonnegative operands and Lean `Int` division agree (both are floor
division for a positive divisor).  Randomness (gap centers) and the wall
clock (`pygame.time.get_ticks()`) enter the functions as explicit parameters.
-/

/-- Python `int(q)`: truncation toward zero. -/
def pyInt (q : ℚ) : ℤ := if 0 ≤ q then q.floor else q.ceil

/-- `pygame.Rect`: integer x, y, width, height. -/
structure PyRect where
  x : ℤ
  y : ℤ
  w : ℤ
  h : ℤ
deriving DecidableEq

def PyRect.left (r : PyRect) : ℤ := r.x

def PyRect.right (r : PyRect) : ℤ := r.x + r.w

def PyRect.top (r : PyRect) : ℤ := r.y

def PyRect.bottom (r : PyRect) : ℤ := r.y + r.h

def PyRect.centery (r : PyRect) : ℤ := r.y + r.h / 2

/-- `pygame.Rect.colliderect`: strict overlap in both axes. -/
def colliderect (a b : PyRect) : Bool :=
  decide (a.x < b.x + b.w ∧ a.y < b.y + b.h ∧ b.x < a.x + a.w ∧ b.y < a.y + a.h)

/-- `pygame.Rect.collidepoint`: inclusive on left/top edge, exclusive on right/bottom. -/
def collidepoint (r : PyRect) (px py : ℤ) : Bool :=
  decide (r.x ≤ px ∧ px < r.x + r.w ∧ r.y ≤ py ∧ py < r.y + r.h)

/-- `Player` (src lines 55–69): float position, int rect, velocity plus
physics constants from the configuration. -/
structure Player where
  x : ℚ
  y : ℚ
  width : ℤ
  height : ℤ
  rectX : ℤ
  rectY : ℤ
  velocity : ℚ
  gravity : ℚ
  flap_strength : ℚ
  max_velocity : ℚ
deriving DecidableEq

/-- `Player.__init__`: rect from truncated coordinates, velocity 0. -/
def Player.init (x y : ℚ) (w h : ℤ) (grav fs maxv : ℚ) : Player :=
  { x := x, y := y, width := w, height := h, rectX := pyInt x, rectY := pyInt y,
    velocity := 0, gravity := grav, flap_strength := fs, max_velocity := maxv }

/-- `Player.update`: clamp velocity at `max_velocity`, integrate y, sync rect. -/
def Player.update (p : Player) : Player :=
  { p with velocity := min (p.velocity + p.gravity) p.max_velocity,
           y := p.y + min (p.velocity + p.gravity) p.max_velocity,
           rectY := pyInt (p.y + min (p.velocity + p.gravity) p.max_velocity) }

/-- `Player.flap`: set velocity to the flap impulse. -/
def Player.flap (p : Player) : Player := { p with velocity := p.flap_strength }

def Player.rect (p : Player) : PyRect := ⟨p.rectX, p.rectY, p.width, p.height⟩

/-- `Wall` (src lines 71–78): float x, fixed y/size, leftward speed. -/
structure Wall where
  x : ℚ
  rectX : ℤ
  y : ℤ
  width : ℤ
  height : ℤ
  speed : ℚ
deriving DecidableEq

/-- `Wall.__init__`. -/
def Wall.create (x : ℚ) (y w h : ℤ) (speed : ℚ) : Wall :=
  { x := x, rectX := pyInt x, y := y, width := w, height := h, speed := speed }

/-- `Wall.update`: move left, sync rect x. -/
def Wall.update (wl : Wall) : Wall :=
  { wl with x := wl.x - wl.speed, rectX := pyInt (wl.x - wl.speed) }

def Wall.rect (wl : Wall) : PyRect := ⟨wl.rectX, wl.y, wl.width, wl.height⟩

/-- `Projectile` (src lines 80–87): fixed 20×10 size, rightward speed. -/
structure Projectile where
  x : ℚ
  rectX : ℤ
  y : ℤ
  speed : ℚ
deriving DecidableEq

/-- `Projectile.__init__`. -/
def Projectile.create (x y : ℤ) (speed : ℚ) : Projectile :=
  { x := (x : ℚ), rectX := x, y := y, speed := speed }

/-- `Projectile.update`: move right, sync rect x. -/
def Projectile.update (p : Projectile) : Projectile :=
  { p with x := p.x + p.speed, rectX := pyInt (p.x + p.speed) }

def Projectile.rect (p : Projectile) : PyRect := ⟨p.rectX, p.y, 20, 10⟩

/-- `FlappyBird.create_wall_pair` (src lines 239–254), with the randomly
drawn `gap_y` passed in explicitly.  Returns the (top, bottom) walls that
the source appends to `self.walls`. -/
def create_wall_pair (width height wallWidth gap : ℤ) (wallSpeed mult : ℚ)
    (gap_y : ℤ) : Wall × Wall :=
  (Wall.create (width : ℚ) 0 wallWidth (gap_y - gap / 2) (wallSpeed * mult),
   Wall.create (width : ℚ) (gap_y + gap / 2) wallWidth
     (height - (gap_y + gap / 2)) (wallSpeed * mult))

/-- The wall section of `FlappyBird.update_game_objects` (src lines 288–293):
update each wall in list order; walls whose rect has moved fully past the
left edge are dropped and award +0.5 each. -/
def wallPhase : List Wall → ℚ → List Wall × ℚ
  | [], score => ([], score)
  | wl :: rest, score =>
    if (Wall.update wl).rect.right < 0 then wallPhase rest (score + 1/2)
    else ((Wall.update wl) :: (wallPhase rest score).1, (wallPhase rest score).2)

/-- The inner enemy loop of the projectile section (src lines 309–314):
remove the first enemy rect colliding with `pr`, if any (`break` after the
first hit). -/
def removeFirstHit (pr : PyRect) : List PyRect → Option (List PyRect)
  | [] => none
  | e :: rest =>
    if colliderect pr e then some rest
    else (removeFirstHit pr rest).map (fun l => e :: l)

/-- The projectile section of `FlappyBird.update_game_objects`
(src lines 301–314): update each projectile; off-screen-right projectiles
are dropped without scoring; otherwise the projectile is tested against the
current enemy list and on a first hit both disappear and the score gains 2. -/
def projPhase (width : ℤ) : List Projectile → List PyRect → ℚ →
    List Projectile × List PyRect × ℚ
  | [], es, score => ([], es, score)
  | p :: rest, es, score =>
    if (Projectile.update p).rect.left > width then projPhase width rest es score
    else
      match removeFirstHit (Projectile.update p).rect es with
      | some es2 => projPhase width rest es2 (score + 2)
      | none =>
        ((Projectile.update p) :: (projPhase width rest es score).1,
         (projPhase width rest es score).2.1,
         (projPhase width rest es score).2.2)

/-- The wall list is a flat list of consecutive (top, bottom) pairs agreeing
on float x, rect x, width and speed — the shape `create_wall_pair` produces. -/
def pairedOk : List Wall → Bool
  | [] => true
  | _ :: [] => false
  | a :: b :: rest =>
    decide (a.x = b.x ∧ a.rectX = b.rectX ∧ a.width = b.width ∧ a.speed = b.speed)
      && pairedOk rest

/-- Leading/trailing whitespace strip, as Python `int(str)` performs. -/
def stripWS (cs : List Char) : List Char :=
  ((cs.dropWhile Char.isWhitespace).reverse.dropWhile Char.isWhitespace).reverse

def digitsVal (cs : List Char) : ℕ :=
  cs.foldl (fun a c => 10 * a + (c.toNat - 48)) 0

def parseNatDigits (cs : List Char) : Option ℕ :=
  if cs ≠ [] ∧ cs.all Char.isDigit = true then some (digitsVal cs) else none

/-- Python `int(s)` on a decimal string: optional surrounding whitespace,
optional sign, at least one digit; anything else raises `ValueError`
(modelled as `none`). -/
def pyIntOfString (s : String) : Option ℤ :=
  match stripWS s.toList with
  | '-' :: rest => (parseNatDigits rest).map (fun n => -(n : ℤ))
  | '+' :: rest => (parseNatDigits rest).map (fun n => (n : ℤ))
  | cs => (parseNatDigits cs).map (fun n => (n : ℤ))

/-- `FlappyBird.load_high_score` (src lines 197–202): the storage content is
`none` when `highscore.txt` does not exist (`FileNotFoundError`, caught,
returns 0) and `some s` when the file holds text `s`; `int(s)` failing
raises an uncaught `ValueError`. -/
def load_high_score (storage : Option String) : Except String ℤ :=
  match storage with
  | none => Except.ok 0
  | some s =>
    match pyIntOfString s with
    | some n => Except.ok n
    | none => Except.error "ValueError"

/-- The configuration fields of `levels.json` the embedded operations read. -/
structure Config where
  width : ℤ
  height : ℤ
  playerWidth : ℤ
  playerHeight : ℤ
  gravity : ℚ
  flap_strength : ℚ
  max_velocity : ℚ
  wallWidth : ℤ
  wallGap : ℤ
  wallSpeed : ℚ
  wall_speed_multiplier : ℚ
deriving DecidableEq

/-- `self.game_state` ∈ {"START", "PLAYING", "GAME_OVER"}. -/
inductive GState where
  | START
  | PLAYING
  | GAME_OVER
deriving DecidableEq

/-- The mutable state of the `FlappyBird` object that the embedded
operations touch.  `enemies` keeps only each enemy's rect (the sole field
the embedded phases read).  `start_button` is `none` until the start screen
has been drawn (`hasattr(self, 'start_button_rect')`). -/
structure Game where
  cfg : Config
  running : Bool
  game_state : GState
  player : Player
  walls : List Wall
  enemies : List PyRect
  projectiles : List Projectile
  last_wall : ℤ
  last_enemy : ℤ
  last_shot : ℤ
  score : ℚ
  high_score : ℤ
  start_button : Option PyRect
deriving DecidableEq

/-- `self.shot_cooldown = 500` (milliseconds). -/
def shot_cooldown : ℤ := 500

/-- `FlappyBird.shoot_projectile` (src lines 229–237), with the current
clock reading `t` passed in: fires only when strictly more than the
cooldown has elapsed since `last_shot`. -/
def Game.shoot_projectile (g : Game) (t : ℤ) : Game :=
  if t - g.last_shot > shot_cooldown then
    { g with
      projectiles := g.projectiles ++
        [Projectile.create g.player.rect.right g.player.rect.centery 10],
      last_shot := t }
  else g

/-- `FlappyBird.reset_game` (src lines 208–227): fresh player at
(width // 4, height // 2), cleared collections, `last_wall = 0` (the
source comment: spawn the first wall immediately), enemy/shot timers at the
current clock `t`, one wall pair appended, score zeroed. -/
def Game.reset_game (g : Game) (t gap_y : ℤ) : Game :=
  { g with
    player := Player.init ((g.cfg.width / 4 : ℤ) : ℚ) ((g.cfg.height / 2 : ℤ) : ℚ)
      g.cfg.playerWidth g.cfg.playerHeight g.cfg.gravity g.cfg.flap_strength
      g.cfg.max_velocity,
    walls := [(create_wall_pair g.cfg.width g.cfg.height g.cfg.wallWidth
                 g.cfg.wallGap g.cfg.wallSpeed g.cfg.wall_speed_multiplier gap_y).1,
              (create_wall_pair g.cfg.width g.cfg.height g.cfg.wallWidth
                 g.cfg.wallGap g.cfg.wallSpeed g.cfg.wall_speed_multiplier gap_y).2],
    enemies := [],
    projectiles := [],
    last_wall := 0,
    last_enemy := t,
    last_shot := t,
    score := 0 }

/-- The game-over reaction in `FlappyBird.run` (src lines 513–518): on a
collision, compare the raw float score against the stored high score;
when it is strictly greater, store the truncated score and persist it
(the returned flag records whether `save_high_score` was called); always
enter GAME_OVER. -/
def Game.gameOverStep (g : Game) : Game × Bool :=
  if (g.high_score : ℚ) < g.score then
    ({ g with high_score := pyInt g.score, game_state := GState.GAME_OVER }, true)
  else ({ g with game_state := GState.GAME_OVER }, false)

/-- Keys the event loop distinguishes. -/
inductive PyKey where
  | space
  | right
  | other
deriving DecidableEq

/-- The pygame events the loop in `FlappyBird.run` reacts to. -/
inductive PyEvent where
  | quit
  | mouseButtonDown (button px py : ℤ)
  | keyDown (k : PyKey)
deriving DecidableEq

def PyEvent.isQuit : PyEvent → Bool
  | .quit => true
  | _ => false

def PyEvent.isMouseDown : PyEvent → Bool
  | .mouseButtonDown _ _ _ => true
  | _ => false

def PyEvent.isKeyDown : PyEvent → Bool
  | .keyDown _ => true
  | _ => false

/-- First `MOUSEBUTTONDOWN` branch of the event chain (src lines 486–491):
only the START-screen button click is handled here. -/
def mouseBranchA (g : Game) (button px py : ℤ) : Game :=
  if button = 1 then
    if g.game_state = GState.START ∧ g.start_button.isSome = true then
      match g.start_button with
      | some r => if collidepoint r px py then { g with game_state := GState.PLAYING } else g
      | none => g
    else g
  else g

/-- Second `MOUSEBUTTONDOWN` branch of the event chain (src lines 492–498):
START-button click, or a projectile shot while PLAYING.  In the source this
is a second `elif` on the same event type, so it is dead code. -/
def mouseBranchB (g : Game) (t button px py : ℤ) : Game :=
  if button = 1 then
    if g.game_state = GState.START ∧ g.start_button.isSome = true then
      match g.start_button with
      | some r => if collidepoint r px py then { g with game_state := GState.PLAYING } else g
      | none => g
    else if g.game_state = GState.PLAYING then g.shoot_projectile t
    else g
  else g

/-- `KEYDOWN` branch (src lines 499–508): SPACE flaps in PLAYING and
restarts from GAME_OVER; RIGHT shoots in PLAYING. -/
def keyBranch (g : Game) (t gap_y : ℤ) (k : PyKey) : Game :=
  match k with
  | .space =>
    if g.game_state = GState.PLAYING then { g with player := g.player.flap }
    else if g.game_state = GState.GAME_OVER then
      { g.reset_game t gap_y with game_state := GState.PLAYING }
    else g
  | .right => if g.game_state = GState.PLAYING then g.shoot_projectile t else g
  | .other => g

/-- One event dispatch of the `if/elif` chain in `FlappyBird.run`
(src lines 483–508).  The chain is transcribed literally: the two
consecutive `elif event.type == pygame.MOUSEBUTTONDOWN` tests appear in
source order, so the second can never be taken. -/
def handleEvent (g : Game) (t gap_y : ℤ) (e : PyEvent) : Game :=
  if e.isQuit then { g with running := false }
  else if e.isMouseDown then
    match e with
    | .mouseButtonDown b px py => mouseBranchA g b px py
    | _ => g
  else if e.isMouseDown then
    match e with
    | .mouseButtonDown b px py => mouseBranchB g t b px py
    | _ => g
  else if e.isKeyDown then
    match e with
    | .keyDown k => keyBranch g t gap_y k
    | _ => g
  else g

/-- A concrete configuration with the spec's scenario dimensions
(screen height 800, gap 150). -/
def sampleConfig : Config :=
  { width := 800, height := 800, playerWidth := 50, playerHeight := 50,
    gravity := 1/2, flap_strength := -10, max_velocity := 10,
    wallWidth := 80, wallGap := 150, wallSpeed := 3,
    wall_speed_multiplier := 1 }

/-- A concrete mid-session game in PLAYING with an idle shot timer. -/
def sampleGame : Game :=
  { cfg := sampleConfig, running := true, game_state := GState.PLAYING,
    player := Player.init 200 400 50 50 (1/2) (-10) 10,
    walls := [], enemies := [], projectiles := [],
    last_wall := 0, last_enemy := 0, last_shot := 0,
    score := 0, high_score := 0, start_button := none }

/-- The same game on the GAME_OVER screen. -/
def sampleOverGame : Game := { sampleGame with game_state := GState.GAME_OVER }

/-- The same game on the START screen, with the start button drawn. -/
def sampleStartGame : Game :=
  { sampleGame with game_state := GState.START,
                    start_button := some ⟨330, 370, 140, 60⟩ }

/-- A mid-session game whose raw score 10.5 truncates to the stored high
score 10. -/
def sampleHalfGame : Game := { sampleGame with score := 21/2, high_score := 10 }

/-- C7: every player tick sets velocity to min(velocity + gravity,
max_velocity) and adds the new velocity to y, so the velocity never exceeds
the configured maximum after a tick; a flap sets velocity to the flap
impulse regardless of the current velocity. -/
theorem C7_player_motion (p : Player) :
    (p.update).velocity = min (p.velocity + p.gravity) p.max_velocity ∧
    (p.update).y = p.y + min (p.velocity + p.gravity) p.max_velocity ∧
    (p.update).velocity ≤ p.max_velocity ∧
    (p.flap).velocity = p.flap_strength :=
  ⟨rfl, rfl, min_le_right _ _, rfl⟩

/-- C1 counterexample: with screen height 800 and the odd configured gap
151, the spawned pair at gap center 400 has top height 325 and bottom
height 325, so top + gap + bottom = 801 ≠ 800: the claimed identity fails
for an odd configured gap size. -/
theorem C1_counterexample :
    ¬ ((create_wall_pair 800 800 80 151 3 1 400).1.height + 151 +
       (create_wall_pair 800 800 80 151 3 1 400).2.height = 800) := by decide

/-- C1 amended: for every spawned pair, top height + gap + bottom height
equals screen height plus (gap mod 2); in particular it equals exactly the
screen height, for any randomly chosen gap center, whenever the configured
gap size is even (as in the spec scenario of height 800, gap 150). -/
theorem C1_amended (width height wallWidth gap : ℤ) (ws m : ℚ) (gap_y : ℤ) :
    (create_wall_pair width height wallWidth gap ws m gap_y).1.height + gap +
      (create_wall_pair width height wallWidth gap ws m gap_y).2.height
      = height + gap % 2 ∧
    (gap % 2 = 0 →
      (create_wall_pair width height wallWidth gap ws m gap_y).1.height + gap +
        (create_wall_pair width height wallWidth gap ws m gap_y).2.height = height) := by
  constructor
  · show gap_y - gap / 2 + gap + (height - (gap_y + gap / 2)) = height + gap % 2
    omega
  · intro h
    show gap_y - gap / 2 + gap + (height - (gap_y + gap / 2)) = height
    omega

/-- C1 witness: the spec scenario, screen height 800 and gap 150, at gap
center 203: top + 150 + bottom = 800. -/
theorem C1_amended_witness :
    (create_wall_pair 800 800 80 150 3 1 203).1.height + 150 +
      (create_wall_pair 800 800 80 150 3 1 203).2.height = 800 :=
  (C1_amended 800 800 80 150 3 1 203).2 (by decide)

set_option maxRecDepth 100000 in
/-- C2 counterexample: with last_shot = 0 and cooldown 500, a fire at clock
time exactly 500 — elapsed time equal to the cooldown — is rejected: the
game is unchanged and no projectile is added, contradicting "accepted
exactly at the interval". -/
theorem C2_counterexample :
    (500 : ℤ) - sampleGame.last_shot = shot_cooldown ∧
    sampleGame.shoot_projectile 500 = sampleGame ∧
    (sampleGame.shoot_projectile 500).projectiles.length ≠
      sampleGame.projectiles.length + 1 := by
  refine ⟨by decide, by with_unfolding_all decide, by with_unfolding_all decide⟩

/-- C2 amended: a fire is accepted if and only if the elapsed time since
the last successful fire strictly exceeds the cooldown interval; a fire at
elapsed time equal to or less than the interval is rejected, leaving the
game (projectiles and last-shot time) unchanged. -/
theorem C2_amended (g : Game) (t : ℤ) :
    (shot_cooldown < t - g.last_shot →
      (g.shoot_projectile t).projectiles =
        g.projectiles ++ [Projectile.create g.player.rect.right
          g.player.rect.centery 10] ∧
      (g.shoot_projectile t).last_shot = t) ∧
    (t - g.last_shot ≤ shot_cooldown → g.shoot_projectile t = g) := by
  constructor
  · intro h
    unfold Game.shoot_projectile
    rw [if_pos h]
    exact ⟨rfl, rfl⟩
  · intro h
    unfold Game.shoot_projectile
    rw [if_neg (by omega)]

/-- C2 witness: at clock 501 (elapsed 501 > 500) the fire is accepted and
the projectile list grows; at clock 500 (elapsed exactly the cooldown) the
game is unchanged. -/
theorem C2_amended_witness :
    ((sampleGame.shoot_projectile 501).projectiles =
      sampleGame.projectiles ++ [Projectile.create sampleGame.player.rect.right
        sampleGame.player.rect.centery 10] ∧
     (sampleGame.shoot_projectile 501).last_shot = 501) ∧
    sampleGame.shoot_projectile 500 = sampleGame :=
  ⟨(C2_amended sampleGame 501).1 (by decide),
   (C2_amended sampleGame 500).2 (by decide)⟩

set_option maxRecDepth 100000 in
/-- C3: the code contradicts the claim (and its own on-screen instructions,
src line 437): a left-click received while PLAYING with the cooldown long
elapsed leaves the game — in particular the projectile list — completely
unchanged, because the second `elif` on MOUSEBUTTONDOWN (src line 492) is
dead code; only the first branch runs and it handles only the START state. -/
theorem C3_left_click_playing_ignored :
    sampleGame.game_state = GState.PLAYING ∧
    shot_cooldown < (10000 : ℤ) - sampleGame.last_shot ∧
    handleEvent sampleGame 10000 400 (PyEvent.mouseButtonDown 1 100 100) =
      sampleGame := by
  refine ⟨rfl, by decide, by with_unfolding_all decide⟩

set_option maxRecDepth 100000 in
/-- C5 counterexample: with raw score 10.5 and stored high score 10 the
game-over transition persists the high score (flag true) although the
truncated score 10 does not exceed the stored high score 10 — the stored
value is even rewritten with the same number 10. -/
theorem C5_counterexample :
    (sampleHalfGame.gameOverStep).2 = true ∧
    (sampleHalfGame.gameOverStep).1.high_score = 10 ∧
    ¬ (pyInt sampleHalfGame.score > sampleHalfGame.high_score) := by
  refine ⟨by with_unfolding_all decide, by with_unfolding_all decide,
    by with_unfolding_all decide⟩

/-- C5 amended: on the PLAYING → GAME_OVER transition the high score is
updated and persisted if and only if the raw (float) score strictly exceeds
the stored high score; the stored value becomes the truncated score (which
may equal the previous high score); otherwise the state is unchanged except
for entering GAME_OVER. -/
theorem C5_amended (g : Game) :
    ((g.gameOverStep).2 = true ↔ (g.high_score : ℚ) < g.score) ∧
    (g.gameOverStep).1.high_score =
      (if (g.high_score : ℚ) < g.score then pyInt g.score else g.high_score) ∧
    (g.gameOverStep).1.game_state = GState.GAME_OVER ∧
    (¬ (g.high_score : ℚ) < g.score →
      (g.gameOverStep).1 = { g with game_state := GState.GAME_OVER }) := by
  unfold Game.gameOverStep
  by_cases h : (g.high_score : ℚ) < g.score
  · rw [if_pos h, if_pos h]
    exact ⟨by simpa using h, rfl, rfl, fun hn => absurd h hn⟩
  · rw [if_neg h, if_neg h]
    exact ⟨by simpa using h, rfl, rfl, fun _ => rfl⟩

/-- C5 witness: at raw score 10.5 against stored high score 10 the persist
flag is set and the stored value becomes the truncation of the score. -/
theorem C5_amended_witness :
    (sampleHalfGame.gameOverStep).2 = true ∧
    (sampleHalfGame.gameOverStep).1.high_score = pyInt sampleHalfGame.score := by
  constructor
  · exact (C5_amended sampleHalfGame).1.mpr (by with_unfolding_all decide)
  · rw [(C5_amended sampleHalfGame).2.1,
      if_pos (show (sampleHalfGame.high_score : ℚ) < sampleHalfGame.score by
        with_unfolding_all decide)]

/-- C6 counterexample: storage content "abc" is not parseable as an
integer; the load raises an uncaught ValueError instead of returning 0 —
only the missing-file case (`FileNotFoundError`) is caught by the source. -/
theorem C6_counterexample :
    load_high_score (some "abc") = Except.error "ValueError" ∧
    load_high_score (some "abc") ≠ Except.ok 0 := by
  refine ⟨rfl, fun h => ?_⟩
  rw [show load_high_score (some "abc") = Except.error "ValueError" from rfl] at h
  exact Except.noConfusion h

/-- C6 amended: loading with missing storage returns 0; content parseable
as an integer is returned as that integer; unreadable/corrupt content
raises an uncaught ValueError (a fatal error), not 0. -/
theorem C6_amended :
    load_high_score none = Except.ok 0 ∧
    (∀ (s : String) (n : ℤ), pyIntOfString s = some n →
      load_high_score (some s) = Except.ok n) ∧
    (∀ s : String, pyIntOfString s = none →
      load_high_score (some s) = Except.error "ValueError") := by
  refine ⟨rfl, ?_, ?_⟩
  · intro s n h
    simp [load_high_score, h]
  · intro s h
    simp [load_high_score, h]

/-- C6 witness: the three load behaviors on concrete storage contents. -/
theorem C6_amended_witness :
    load_high_score none = Except.ok 0 ∧
    load_high_score (some "42") = Except.ok 42 ∧
    load_high_score (some "abc") = Except.error "ValueError" :=
  ⟨C6_amended.1, C6_amended.2.1 "42" 42 (by decide),
   C6_amended.2.2 "abc" (by decide)⟩

set_option maxRecDepth 100000 in
/-- C4 counterexample: a restart from GAME_OVER at clock time 1000 reaches
PLAYING but sets the last-obstacle-time to 0 (the source primes the wall
scheduler with `self.last_wall = 0`), not to the current clock time 1000 —
the claim that all three spawn timers are reset to the current clock time
fails. -/
theorem C4_counterexample :
    sampleOverGame.game_state = GState.GAME_OVER ∧
    (handleEvent sampleOverGame 1000 400 (PyEvent.keyDown PyKey.space)).game_state
      = GState.PLAYING ∧
    (handleEvent sampleOverGame 1000 400 (PyEvent.keyDown PyKey.space)).last_wall
      = 0 ∧
    (handleEvent sampleOverGame 1000 400 (PyEvent.keyDown PyKey.space)).last_wall
      ≠ 1000 := by
  refine ⟨rfl, rfl, rfl, by with_unfolding_all decide⟩

/-- C4 amended: a restart from GAME_OVER performs a full session reset and
transitions to PLAYING: score 0, exactly one primed (matched) obstacle
pair, empty enemy and projectile collections, the player freshly created at
(width // 4, height // 2), the enemy and shot timers reset to the current
clock time — but the obstacle timer is set to 0 rather than the clock time. -/
theorem C4_amended (g : Game) (t gap_y : ℤ) (h : g.game_state = GState.GAME_OVER) :
    handleEvent g t gap_y (PyEvent.keyDown PyKey.space) =
      { g.reset_game t gap_y with game_state := GState.PLAYING } ∧
    (g.reset_game t gap_y).score = 0 ∧
    (g.reset_game t gap_y).enemies = [] ∧
    (g.reset_game t gap_y).projectiles = [] ∧
    (g.reset_game t gap_y).walls =
      [(create_wall_pair g.cfg.width g.cfg.height g.cfg.wallWidth g.cfg.wallGap
          g.cfg.wallSpeed g.cfg.wall_speed_multiplier gap_y).1,
       (create_wall_pair g.cfg.width g.cfg.height g.cfg.wallWidth g.cfg.wallGap
          g.cfg.wallSpeed g.cfg.wall_speed_multiplier gap_y).2] ∧
    pairedOk (g.reset_game t gap_y).walls = true ∧
    (g.reset_game t gap_y).player =
      Player.init ((g.cfg.width / 4 : ℤ) : ℚ) ((g.cfg.height / 2 : ℤ) : ℚ)
        g.cfg.playerWidth g.cfg.playerHeight g.cfg.gravity g.cfg.flap_strength
        g.cfg.max_velocity ∧
    (g.reset_game t gap_y).last_enemy = t ∧
    (g.reset_game t gap_y).last_shot = t ∧
    (g.reset_game t gap_y).last_wall = 0 := by
  refine ⟨?_, rfl, rfl, rfl, rfl, ?_, rfl, rfl, rfl, rfl⟩
  · simp [handleEvent, PyEvent.isQuit, PyEvent.isMouseDown, PyEvent.isKeyDown,
      keyBranch, h]
  · simp [Game.reset_game, pairedOk, create_wall_pair, Wall.create]

set_option maxRecDepth 100000 in
/-- C4 witness: the amended restart behavior evaluated at a concrete
GAME_OVER game, clock time 1000 and gap center 400. -/
theorem C4_amended_witness :
    handleEvent sampleOverGame 1000 400 (PyEvent.keyDown PyKey.space) =
      { sampleOverGame.reset_game 1000 400 with game_state := GState.PLAYING } ∧
    (sampleOverGame.reset_game 1000 400).score = 0 ∧
    (sampleOverGame.reset_game 1000 400).enemies = [] ∧
    (sampleOverGame.reset_game 1000 400).projectiles = [] ∧
    (sampleOverGame.reset_game 1000 400).walls =
      [(create_wall_pair sampleOverGame.cfg.width sampleOverGame.cfg.height
          sampleOverGame.cfg.wallWidth sampleOverGame.cfg.wallGap
          sampleOverGame.cfg.wallSpeed sampleOverGame.cfg.wall_speed_multiplier
          400).1,
       (create_wall_pair sampleOverGame.cfg.width sampleOverGame.cfg.height
          sampleOverGame.cfg.wallWidth sampleOverGame.cfg.wallGap
          sampleOverGame.cfg.wallSpeed sampleOverGame.cfg.wall_speed_multiplier
          400).2] ∧
    pairedOk (sampleOverGame.reset_game 1000 400).walls = true ∧
    (sampleOverGame.reset_game 1000 400).player =
      Player.init ((sampleOverGame.cfg.width / 4 : ℤ) : ℚ)
        ((sampleOverGame.cfg.height / 2 : ℤ) : ℚ) sampleOverGame.cfg.playerWidth
        sampleOverGame.cfg.playerHeight sampleOverGame.cfg.gravity
        sampleOverGame.cfg.flap_strength sampleOverGame.cfg.max_velocity ∧
    (sampleOverGame.reset_game 1000 400).last_enemy = 1000 ∧
    (sampleOverGame.reset_game 1000 400).last_shot = 1000 ∧
    (sampleOverGame.reset_game 1000 400).last_wall = 0 :=
  C4_amended sampleOverGame 1000 400 rfl

/-- Firing a projectile never changes the state-machine state. -/
theorem shoot_projectile_game_state (g : Game) (t : ℤ) :
    (g.shoot_projectile t).game_state = g.game_state := by
  unfold Game.shoot_projectile
  split <;> rfl

/-- C9: the state machine moves only on the documented triggers.  A SPACE
(flap) key-press while in START leaves the whole game — state and player
velocity included — unchanged; and whenever an event changes the game
state, either the game was in START and the event was a left click on the
drawn start button (entering PLAYING), or the game was in GAME_OVER and the
event was the SPACE restart key (entering PLAYING).  Every other input is
ignored without error. -/
theorem C9_state_transitions (g : Game) (t gap_y : ℤ) (e : PyEvent) :
    (g.game_state = GState.START →
      handleEvent g t gap_y (PyEvent.keyDown PyKey.space) = g) ∧
    ((handleEvent g t gap_y e).game_state ≠ g.game_state →
      (g.game_state = GState.START ∧
        (handleEvent g t gap_y e).game_state = GState.PLAYING ∧
        ∃ px py r, e = PyEvent.mouseButtonDown 1 px py ∧
          g.start_button = some r ∧ collidepoint r px py = true) ∨
      (g.game_state = GState.GAME_OVER ∧
        (handleEvent g t gap_y e).game_state = GState.PLAYING ∧
        e = PyEvent.keyDown PyKey.space)) := by
  constructor
  · intro h
    simp [handleEvent, PyEvent.isQuit, PyEvent.isMouseDown, PyEvent.isKeyDown,
      keyBranch, h]
  · intro hne
    cases e with
    | quit => exact absurd rfl hne
    | keyDown k =>
      cases k with
      | space =>
        by_cases hp : g.game_state = GState.PLAYING
        · exact absurd (by simp [handleEvent, PyEvent.isQuit, PyEvent.isMouseDown,
            PyEvent.isKeyDown, keyBranch, hp, Player.flap]) hne
        · by_cases hg : g.game_state = GState.GAME_OVER
          · exact Or.inr ⟨hg, by simp [handleEvent, PyEvent.isQuit,
              PyEvent.isMouseDown, PyEvent.isKeyDown, keyBranch, hp, hg], rfl⟩
          · exact absurd (by simp [handleEvent, PyEvent.isQuit, PyEvent.isMouseDown,
              PyEvent.isKeyDown, keyBranch, hp, hg]) hne
      | right =>
        by_cases hp : g.game_state = GState.PLAYING
        · exact absurd (by simp [handleEvent, PyEvent.isQuit, PyEvent.isMouseDown,
            PyEvent.isKeyDown, keyBranch, hp, shoot_projectile_game_state]) hne
        · exact absurd (by simp [handleEvent, PyEvent.isQuit, PyEvent.isMouseDown,
            PyEvent.isKeyDown, keyBranch, hp]) hne
      | other =>
        exact absurd (by simp [handleEvent, PyEvent.isQuit, PyEvent.isMouseDown,
          PyEvent.isKeyDown, keyBranch]) hne
    | mouseButtonDown b px py =>
      have hred : handleEvent g t gap_y (PyEvent.mouseButtonDown b px py) =
          mouseBranchA g b px py := by
        simp [handleEvent, PyEvent.isQuit, PyEvent.isMouseDown]
      rw [hred] at hne ⊢
      by_cases hb : b = 1
      · subst hb
        by_cases hs : g.game_state = GState.START ∧ g.start_button.isSome = true
        · obtain ⟨r, hsb⟩ := Option.isSome_iff_exists.mp hs.2
          by_cases hc : collidepoint r px py = true
          · exact Or.inl ⟨hs.1, by simp [mouseBranchA, hs, hsb, hc],
              px, py, r, rfl, hsb, hc⟩
          · exact absurd (by simp [mouseBranchA, hs, hsb, hc]) hne
        · exact absurd (by simp [mouseBranchA, hs]) hne
      · exact absurd (by simp [mouseBranchA, hb]) hne

set_option maxRecDepth 100000 in
/-- C9 witness: a SPACE press on a concrete START game changes nothing, and
the restart transition from a concrete GAME_OVER game matches the
documented GAME_OVER trigger. -/
theorem C9_witness :
    handleEvent sampleStartGame 5 6 (PyEvent.keyDown PyKey.space) =
      sampleStartGame ∧
    ((sampleOverGame.game_state = GState.START ∧
        (handleEvent sampleOverGame 1000 400
          (PyEvent.keyDown PyKey.space)).game_state = GState.PLAYING ∧
        ∃ px py r, PyEvent.keyDown PyKey.space = PyEvent.mouseButtonDown 1 px py ∧
          sampleOverGame.start_button = some r ∧ collidepoint r px py = true) ∨
      (sampleOverGame.game_state = GState.GAME_OVER ∧
        (handleEvent sampleOverGame 1000 400
          (PyEvent.keyDown PyKey.space)).game_state = GState.PLAYING ∧
        PyEvent.keyDown PyKey.space = PyEvent.keyDown PyKey.space)) :=
  ⟨(C9_state_transitions sampleStartGame 5 6 (PyEvent.keyDown PyKey.space)).1 rfl,
   (C9_state_transitions sampleOverGame 1000 400 (PyEvent.keyDown PyKey.space)).2
     (by with_unfolding_all decide)⟩

/-- The first-hit removal returns the input list split at the first enemy
whose rect collides: everything before it misses, it is dropped, everything
after it is kept. -/
theorem removeFirstHit_split : ∀ (pr : PyRect) (es es2 : List PyRect),
    removeFirstHit pr es = some es2 →
    ∃ pre e post, es = pre ++ e :: post ∧ es2 = pre ++ post ∧
      colliderect pr e = true ∧ ∀ x ∈ pre, colliderect pr x = false
  | pr, [], es2, h => by simp [removeFirstHit] at h
  | pr, e :: rest, es2, h => by
    by_cases hc : colliderect pr e = true
    · rw [removeFirstHit, if_pos hc] at h
      exact ⟨[], e, rest, rfl, by simpa using (Option.some.inj h).symm, hc, by simp⟩
    · rw [removeFirstHit, if_neg hc] at h
      rw [Option.map_eq_some'] at h
      obtain ⟨l, hl, hrest⟩ := h
      obtain ⟨pre, e2, post, h1, h2, h3, h4⟩ := removeFirstHit_split pr rest l hl
      refine ⟨e :: pre, e2, post, by simp [h1], by simp [← hrest, h2], h3, ?_⟩
      intro x hx
      rcases List.mem_cons.mp hx with rfl | hx2
      · simpa using hc
      · exact h4 x hx2

/-- C8: in a tick, a live (on-screen after its update) projectile whose
bounding box first matches enemy `e` is consumed together with exactly that
enemy: the tick continues with the projectile gone, the enemy list reduced
by exactly that first-matching enemy (one fewer element, enemies before the
match untouched because they miss, enemies after it untouched by this
projectile), and the score increased by exactly 2. -/
theorem C8_projectile_hit (w : ℤ) (p : Projectile) (rest : List Projectile)
    (es es2 : List PyRect) (sc : ℚ)
    (hOn : ¬ (Projectile.update p).rect.left > w)
    (hHit : removeFirstHit (Projectile.update p).rect es = some es2) :
    projPhase w (p :: rest) es sc = projPhase w rest es2 (sc + 2) ∧
    es.length = es2.length + 1 ∧
    ∃ pre e post, es = pre ++ e :: post ∧ es2 = pre ++ post ∧
      colliderect (Projectile.update p).rect e = true ∧
      ∀ x ∈ pre, colliderect (Projectile.update p).rect x = false := by
  obtain ⟨pre, e, post, h1, h2, h3, h4⟩ := removeFirstHit_split _ _ _ hHit
  refine ⟨?_, ?_, pre, e, post, h1, h2, h3, h4⟩
  · rw [projPhase, if_neg hOn, hHit]
  · rw [h1, h2]
    simp
    omega

set_option maxRecDepth 100000 in
/-- C8 witness: a concrete projectile at x = 100 (updated to 110) hits the
first of two enemies; the tick ends with the projectile gone, only the
second enemy left, and the score up by exactly 2. -/
theorem C8_witness :
    projPhase 800 [Projectile.create 100 100 10]
        [PyRect.mk 115 95 50 50, PyRect.mk 400 400 50 50] 0 =
      projPhase 800 [] [PyRect.mk 400 400 50 50] (0 + 2) ∧
    [PyRect.mk 115 95 50 50, PyRect.mk 400 400 50 50].length =
      [PyRect.mk 400 400 50 50].length + 1 ∧
    ∃ pre e post,
      [PyRect.mk 115 95 50 50, PyRect.mk 400 400 50 50] = pre ++ e :: post ∧
      [PyRect.mk 400 400 50 50] = pre ++ post ∧
      colliderect (Projectile.update (Projectile.create 100 100 10)).rect e
        = true ∧
      ∀ x ∈ pre,
        colliderect (Projectile.update (Projectile.create 100 100 10)).rect x
          = false :=
  C8_projectile_hit 800 (Projectile.create 100 100 10) []
    [PyRect.mk 115 95 50 50, PyRect.mk 400 400 50 50] [PyRect.mk 400 400 50 50]
    0 (by with_unfolding_all decide) (by with_unfolding_all decide)

/-- Unpack one paired step: matching head fields plus a paired tail. -/
theorem pairedOk_fields {a b : Wall} {rest : List Wall}
    (h : pairedOk (a :: b :: rest) = true) :
    a.x = b.x ∧ a.rectX = b.rectX ∧ a.width = b.width ∧ a.speed = b.speed ∧
    pairedOk rest = true := by
  simp [pairedOk] at h
  exact ⟨h.1.1, h.1.2.1, h.1.2.2.1, h.1.2.2.2, h.2⟩

/-- A paired wall list has an even number of segments. -/
theorem pairedOk_even : ∀ ws : List Wall, pairedOk ws = true → Even ws.length
  | [], _ => by simp
  | [w], h => by simp [pairedOk] at h
  | _ :: _ :: rest, h => by
    have hr := pairedOk_even rest (pairedOk_fields h).2.2.2.2
    rw [Nat.even_iff] at hr ⊢
    simp only [List.length_cons]
    omega

/-- Appending one matched pair preserves pairedness. -/
theorem pairedOk_append_pair : ∀ (ws : List Wall), pairedOk ws = true →
    ∀ a b : Wall, a.x = b.x → a.rectX = b.rectX → a.width = b.width →
    a.speed = b.speed → pairedOk (ws ++ [a, b]) = true
  | [], _, a, b, h1, h2, h3, h4 => by simp [pairedOk, h1, h2, h3, h4]
  | [w], h, _, _, _, _, _, _ => by simp [pairedOk] at h
  | x :: y :: rest, h, a, b, h1, h2, h3, h4 => by
    obtain ⟨hx, hrx, hw, hs, hrest⟩ := pairedOk_fields h
    have hr := pairedOk_append_pair rest hrest a b h1 h2 h3 h4
    simpa [pairedOk, hx, hrx, hw, hs] using hr

/-- Both segments of a matched pair update identically in x and are culled
together, so the wall tick preserves pairedness and removes walls two at a
time, awarding half a point each. -/
theorem wallPhase_paired : ∀ (walls : List Wall) (sc : ℚ), pairedOk walls = true →
    pairedOk (wallPhase walls sc).1 = true ∧
    ∃ k : ℕ, (wallPhase walls sc).2 = sc + k ∧
      walls.length = (wallPhase walls sc).1.length + 2 * k
  | [], sc, _ => ⟨rfl, 0, by simp [wallPhase], rfl⟩
  | [w], sc, h => by simp [pairedOk] at h
  | a :: b :: rest, sc, h => by
    obtain ⟨hx, hrx, hw, hs, hrest⟩ := pairedOk_fields h
    have hcond : ((Wall.update b).rect.right < 0) ↔
        ((Wall.update a).rect.right < 0) := by
      simp [Wall.update, Wall.rect, PyRect.right, hx, hs, hw]
    by_cases hca : (Wall.update a).rect.right < 0
    · have e0 : wallPhase (b :: rest) (sc + 1/2) =
          wallPhase rest (sc + 1/2 + 1/2) := by
        rw [wallPhase, if_pos (hcond.mpr hca)]
      have e1 : wallPhase (a :: b :: rest) sc = wallPhase rest (sc + 1/2 + 1/2) := by
        rw [wallPhase, if_pos hca, e0]
      obtain ⟨hp, k, hsc, hlen⟩ := wallPhase_paired rest (sc + 1/2 + 1/2) hrest
      rw [e1]
      refine ⟨hp, k + 1, ?_, ?_⟩
      · rw [hsc]
        push_cast
        ring
      · simp only [List.length_cons]
        omega
    · have e0 : wallPhase (b :: rest) sc =
          ((Wall.update b) :: (wallPhase rest sc).1, (wallPhase rest sc).2) := by
        rw [wallPhase, if_neg (fun hh => hca (hcond.mp hh))]
      have e1 : wallPhase (a :: b :: rest) sc =
          ((Wall.update a) :: (Wall.update b) :: (wallPhase rest sc).1,
           (wallPhase rest sc).2) := by
        rw [wallPhase, if_neg hca, e0]
      obtain ⟨hp, k, hsc, hlen⟩ := wallPhase_paired rest sc hrest
      rw [e1]
      refine ⟨?_, k, hsc, ?_⟩
      · simpa [pairedOk, Wall.update, hx, hs, hw] using hp
      · simp only [List.length_cons]
        omega

/-- C10: spawning appends a matched pair (equal x, rect x, width, speed) to
a paired wall list, the per-tick wall update and culling preserve
pairedness — so both segments of a pair are always culled in the same tick,
the obstacle collection always holds an even number of segments, and every
culling tick raises the score by a whole number k of points, one per culled
pair (2·k segments removed). -/
theorem C10_wall_pair_invariant (width height wallWidth gap : ℤ) (ws m : ℚ)
    (gap_y : ℤ) (walls : List Wall) (sc : ℚ) (h : pairedOk walls = true) :
    pairedOk (walls ++
      [(create_wall_pair width height wallWidth gap ws m gap_y).1,
       (create_wall_pair width height wallWidth gap ws m gap_y).2]) = true ∧
    pairedOk (wallPhase walls sc).1 = true ∧
    Even (wallPhase walls sc).1.length ∧
    ∃ k : ℕ, (wallPhase walls sc).2 = sc + k ∧
      walls.length = (wallPhase walls sc).1.length + 2 * k := by
  obtain ⟨hp, k, hsc, hlen⟩ := wallPhase_paired walls sc h
  exact ⟨pairedOk_append_pair walls h _ _ rfl rfl rfl rfl,
    hp, pairedOk_even _ hp, k, hsc, hlen⟩

set_option maxRecDepth 100000 in
/-- C10 witness: the invariant evaluated with one concrete spawned pair in
the list and another being appended. -/
theorem C10_wall_pair_invariant_witness :
    pairedOk ([(create_wall_pair 800 800 80 150 3 1 300).1,
               (create_wall_pair 800 800 80 150 3 1 300).2] ++
      [(create_wall_pair 800 800 80 150 3 1 400).1,
       (create_wall_pair 800 800 80 150 3 1 400).2]) = true ∧
    pairedOk (wallPhase [(create_wall_pair 800 800 80 150 3 1 300).1,
      (create_wall_pair 800 800 80 150 3 1 300).2] 0).1 = true ∧
    Even (wallPhase [(create_wall_pair 800 800 80 150 3 1 300).1,
      (create_wall_pair 800 800 80 150 3 1 300).2] 0).1.length ∧
    ∃ k : ℕ, (wallPhase [(create_wall_pair 800 800 80 150 3 1 300).1,
      (create_wall_pair 800 800 80 150 3 1 300).2] 0).2 = 0 + k ∧
      [(create_wall_pair 800 800 80 150 3 1 300).1,
       (create_wall_pair 800 800 80 150 3 1 300).2].length =
        (wallPhase [(create_wall_pair 800 800 80 150 3 1 300).1,
          (create_wall_pair 800 800 80 150 3 1 300).2] 0).1.length + 2 * k :=
  C10_wall_pair_invariant 800 800 80 150 3 1 400
    [(create_wall_pair 800 800 80 150 3 1 300).1,
     (create_wall_pair 800 800 80 150 3 1 300).2] 0
    (by with_unfolding_all decide)
